import Mathlib

/-! Users CRUD service: handlers, router and store model.

Shallow embedding of `src/controllers/users.controller.js` and
`src/routes/users.routes.js`.

* A handler is an `async (req, res) => ...` function that awaits one
  `db.query(sql, params)` inside `try`/`catch`.  It is embedded as a function
  `Req → Res → Eff Res`: the tree `Eff` records the query that is issued and how
  the handler continues on the result (`try` branch) or on a raised error
  (`catch` branch).
* `db` is taken as a parameter (`Store`).  In the repository the controller
  imports the default export of `config/db.js`, while that file exports the
  pool under the name `pool`; the embedding is about the handlers' logic
  relative to whatever object answers `db.query`.
* `res.status(c).json(b)` is embedded on a record `Res` holding the status code
  set so far and the list of responses sent so far.
-/

set_option autoImplicit false

namespace UsersApi

/-! ## Values -/

/-- JavaScript values that occur as path parameters, body fields, column values
and response bodies. `undefined` is what destructuring yields for an absent
property. -/
inductive JsVal where
  | undefined
  | null
  | bool (b : Bool)
  | num (n : Int)
  | str (s : String)
  | arr (items : List JsVal)
  | obj (fields : List (String × JsVal))

/-- Property read `o.k` (also `const { k } = o`): the value stored under `k`,
or `undefined` when the object has no such property. -/
def getProp (fields : List (String × JsVal)) (k : String) : JsVal :=
  match fields.lookup k with
  | some v => v
  | none => JsVal.undefined

/-- One row of a result set (a `RowDataPacket`): column name and value. -/
abbrev Row := List (String × JsVal)

/-- Error object with which `db.query` rejects. -/
structure StoreError where
  code : String
  message : String

/-- What the driver returns for a statement that yields no result set. -/
structure ResultSetHeader where
  affectedRows : Nat
  insertId : Nat

/-- First component of the array `db.query` resolves to (`const [rows] = ...`):
an array of rows for a `SELECT`, a header object for `INSERT`, `UPDATE`,
`DELETE`. -/
inductive QueryResult where
  | rows (rs : List Row)
  | header (h : ResultSetHeader)

/-- The JavaScript expression `rows.length`: the array length, and `none`
(`undefined`) on a header object, which has no such property. -/
def QueryResult.length : QueryResult → Option Nat
  | .rows rs => some rs.length
  | .header _ => none

/-- The JavaScript comparison `x > 0` for `x` a length or `undefined`
(`undefined > 0` is `false`). -/
def gtZero : Option Nat → Bool
  | some n => decide (n > 0)
  | none => false

/-- The JavaScript expression `rows[0]`. -/
def QueryResult.first : QueryResult → JsVal
  | .rows (r :: _) => JsVal.obj r
  | .rows [] => JsVal.undefined
  | .header _ => JsVal.undefined

/-- The value `rows` itself, as handed to `res.json`. -/
def QueryResult.toJs : QueryResult → JsVal
  | .rows rs => JsVal.arr (rs.map JsVal.obj)
  | .header h =>
      JsVal.obj [("affectedRows", JsVal.num h.affectedRows), ("insertId", JsVal.num h.insertId)]

/-- The rows a result carries: those of a result set, none for a header. -/
def QueryResult.rowList : QueryResult → List Row
  | .rows rs => rs
  | .header _ => []

/-! ## Requests and responses -/

/-- The request methods the router registers routes for. -/
inductive Method where
  | GET
  | POST
  | PUT
  | DELETE
  deriving DecidableEq

/-- The part of an Express request the router and the handlers read. `path` is
the request path relative to the router's mount point, split at `/` into its
segments; `params` is filled in by the router from the matched pattern; `body`
is the object produced by the JSON body parser (`[]` is the empty object). -/
structure Req where
  method : Method
  path : List String
  params : List (String × JsVal)
  body : List (String × JsVal)

/-- One response as received by the client. -/
structure Response where
  status : Nat
  body : JsVal

/-- The Express response object: the status code set so far and the responses
sent so far. -/
structure Res where
  statusCode : Nat
  sent : List Response

/-- The response object a handler receives: status 200 by default, nothing
sent. -/
def Res.fresh : Res := ⟨200, []⟩

/-- Embedding of `res.status(code)`. -/
def Res.status (res : Res) (code : Nat) : Res :=
  { res with statusCode := code }

/-- Embedding of `res.json(body)`: sends `body` with the current status code. -/
def Res.json (res : Res) (body : JsVal) : Res :=
  { res with sent := res.sent ++ [⟨res.statusCode, body⟩] }

/-- Embedding of `res.send(body)`. -/
def Res.send (res : Res) (body : JsVal) : Res :=
  { res with sent := res.sent ++ [⟨res.statusCode, body⟩] }

/-! ## Store calls and the handler effect tree -/

/-- The arguments of one `db.query(sql, params)` call. A call without a second
argument has `params = []`. -/
structure DbCall where
  sql : String
  params : List JsVal

/-- How an awaited `db.query` settles: resolved with a result or rejected. -/
abbrev Outcome := Except StoreError QueryResult

/-- A computation that may await store queries before returning. -/
inductive Eff (α : Type) where
  | done (a : α)
  | query (call : DbCall) (k : Outcome → Eff α)

/-- A store: answers a call in a state, giving the outcome and the next
state. -/
abbrev Store (σ : Type) := DbCall → σ → Outcome × σ

/-- Result of running a computation against a store: the returned value, the
final store state, and the calls issued with their outcomes, in order. -/
structure Run (σ α : Type) where
  value : α
  state : σ
  trace : List (DbCall × Outcome)

/-- Runs a computation against a store. -/
def Eff.run {σ α : Type} (db : Store σ) : Eff α → σ → Run σ α
  | .done a, s => ⟨a, s, []⟩
  | .query call k, s =>
      let r := (k (db call s).1).run db (db call s).2
      { r with trace := (call, (db call s).1) :: r.trace }

/-- The calls issued during a run. -/
def Run.calls {σ α : Type} (r : Run σ α) : List DbCall := r.trace.map Prod.fst

/-- The outcomes of the calls issued during a run. -/
def Run.outcomes {σ α : Type} (r : Run σ α) : List Outcome := r.trace.map Prod.snd

/-! ## The handlers (`users.controller.js`) -/

/-- Embedding of `getUsers`. -/
def getUsers (_req : Req) (res : Res) : Eff Res :=
  .query ⟨"SELECT * FROM users", []⟩ fun
    | .ok rows => .done ((res.status 200).json rows.toJs)
    | .error _ => .done ((res.status 500).json (.obj [("error", .str "Error getting users")]))

/-- Embedding of `getUserById`. -/
def getUserById (req : Req) (res : Res) : Eff Res :=
  let id := getProp req.params "id"
  .query ⟨"SELECT * FROM users WHERE id = ?", [id]⟩ fun
    | .ok rows =>
        if gtZero rows.length then
          .done ((res.status 200).json rows.first)
        else
          .done ((res.status 404).json (.obj [("error", .str "User not found")]))
    | .error _ => .done ((res.status 500).json (.obj [("error", .str "Error getting user")]))

/-- Embedding of `createUser`. -/
def createUser (req : Req) (res : Res) : Eff Res :=
  let username := getProp req.body "username"
  let email := getProp req.body "email"
  let password := getProp req.body "password"
  let role := getProp req.body "role"
  .query ⟨"INSERT INTO users (username, email, password, role) VALUES (?, ?, ?, ?)",
      [username, email, password, role]⟩ fun
    | .ok _ => .done ((res.status 201).json (.obj [("message", .str "User created successfully")]))
    | .error _ => .done ((res.status 500).json (.obj [("error", .str "Error creating user")]))

/-- Embedding of `updateUser`. -/
def updateUser (req : Req) (res : Res) : Eff Res :=
  let id := getProp req.params "id"
  let username := getProp req.body "username"
  let email := getProp req.body "email"
  let password := getProp req.body "password"
  let role := getProp req.body "role"
  .query ⟨"UPDATE users SET username = ?, email = ?, password = ?, role = ? WHERE id = ?",
      [username, email, password, role, id]⟩ fun
    | .ok _ => .done ((res.status 200).json (.obj [("message", .str "User updated successfully")]))
    | .error _ => .done ((res.status 500).json (.obj [("error", .str "Error updating user")]))

/-- Embedding of `deleteUser`. -/
def deleteUser (req : Req) (res : Res) : Eff Res :=
  let id := getProp req.params "id"
  .query ⟨"DELETE FROM users WHERE id = ?", [id]⟩ fun
    | .ok _ => .done ((res.status 200).json (.obj [("message", .str "User deleted successfully")]))
    | .error _ => .done ((res.status 500).json (.obj [("error", .str "Error deleting user")]))

/-- A handler as Express calls it. -/
abbrev Handler := Req → Res → Eff Res

/-- Serves one request with a handler against a store, starting from a fresh
response object. -/
def handle {σ : Type} (h : Handler) (db : Store σ) (req : Req) (s : σ) : Run σ Res :=
  (h req Res.fresh).run db s

/-- The five operations of the controller. -/
inductive Op where
  | getUsers
  | getUserById
  | createUser
  | updateUser
  | deleteUser
  deriving DecidableEq

/-- The exported handler of each operation. -/
def Op.handler : Op → Handler
  | .getUsers => UsersApi.getUsers
  | .getUserById => UsersApi.getUserById
  | .createUser => UsersApi.createUser
  | .updateUser => UsersApi.updateUser
  | .deleteUser => UsersApi.deleteUser

/-! ## The router (`users.routes.js`) -/

/-- One segment of a route pattern: a literal or a named parameter (`:id`). -/
inductive Seg where
  | lit (s : String)
  | param (name : String)

/-- Matching of a whole path against a route pattern (`router.get`,
`router.post`, ...): on success the values of the named parameters. -/
def matchRoute : List Seg → List String → Option (List (String × JsVal))
  | [], [] => some []
  | .lit s :: ps, x :: xs => if s = x then matchRoute ps xs else none
  | .param n :: ps, x :: xs => (matchRoute ps xs).map fun rest => (n, JsVal.str x) :: rest
  | _, _ => none

/-- Matching of a path against a mount point (`router.use`): the mount point is
a prefix of the path. -/
def matchMount : List String → List String → Bool
  | [], _ => true
  | m :: ms, x :: xs => decide (m = x) && matchMount ms xs
  | _ :: _, [] => false

/-- What a layer of the router runs. -/
inductive Target where
  | bodyParserJson
  | getUsers
  | getUserById
  | createUser
  | updateUser
  | deleteUser
  | swaggerUi
  deriving DecidableEq

/-- One registration on the router, in the order of the source file. -/
inductive Layer where
  | use (mount : List String) (target : Target)
  | route (method : Method) (pattern : List Seg) (target : Target)

/-- The registrations of `users.routes.js`, top to bottom. -/
def usersRouter : List Layer :=
  [ .use [] .bodyParserJson,
    .route .GET [] .getUsers,
    .route .GET [.param "id"] .getUserById,
    .route .POST [] .createUser,
    .route .PUT [.param "id"] .updateUser,
    .route .DELETE [.param "id"] .deleteUser,
    .use ["api-docs"] .swaggerUi ]

/-- Whether a layer matches a request, and with which path parameters. -/
def Layer.matchReq : Layer → Req → Option (List (String × JsVal))
  | .use mount _, req => if matchMount mount req.path then some [] else none
  | .route m pattern _, req => if m = req.method then matchRoute pattern req.path else none

/-- What the layer runs. -/
def Layer.target : Layer → Target
  | .use _ t => t
  | .route _ _ t => t

/-- Whether the target hands the request on to the next matching layer: the
body parser calls `next()`; the five handlers and the documentation page end
the request. -/
def Target.callsNext : Target → Bool
  | .bodyParserJson => true
  | _ => false

/-- First-match dispatch: the first matching layer that ends the request,
together with the request as that layer sees it. -/
def dispatch : List Layer → Req → Option (Target × Req)
  | [], _ => none
  | l :: ls, req =>
      match l.matchReq req with
      | none => dispatch ls req
      | some ps =>
          if l.target.callsNext then dispatch ls req
          else some (l.target, { req with params := ps })

/-- Stands for the page served by `swaggerUi.setup(specs)`, which comes from a
library and is built from the route annotations only. -/
def swaggerPage : JsVal := .str "swagger-ui"

/-- The function each target runs. The documentation page is sent without any
store query. -/
def Target.handler : Target → Handler
  | .bodyParserJson => fun _ res => .done res
  | .getUsers => UsersApi.getUsers
  | .getUserById => UsersApi.getUserById
  | .createUser => UsersApi.createUser
  | .updateUser => UsersApi.updateUser
  | .deleteUser => UsersApi.deleteUser
  | .swaggerUi => fun _ res => .done ((res.status 200).send swaggerPage)

/-- Serves a request through the router. When no layer ends the request the
router sends nothing and control returns to the application it is mounted
in. -/
def serve {σ : Type} (layers : List Layer) (db : Store σ) (req : Req) (s : σ) : Run σ Res :=
  match dispatch layers req with
  | some (t, req') => handle t.handler db req' s
  | none => ⟨Res.fresh, s, []⟩

/-! ## A table model of the store -/

/-- Modelled from the spec: a row of the `users` table (`id`, `username`,
`email`, `password`, `role`). -/
structure UserRow where
  id : Nat
  username : JsVal
  email : JsVal
  password : JsVal
  role : JsVal

/-- The row as `SELECT *` returns it. -/
def UserRow.toRow (u : UserRow) : Row :=
  [("id", .num u.id), ("username", u.username), ("email", u.email),
   ("password", u.password), ("role", u.role)]

/-- The `users` table. -/
abbrev Table := List UserRow

/-- Decimal value of a digit string, `none` when a character is not a digit.
The accumulator is the value read so far. -/
def digitsValue : List Char → Nat → Option Nat
  | [], acc => some acc
  | c :: cs, acc =>
      if c.isDigit then digitsValue cs (acc * 10 + (c.toNat - 48)) else none

/-- Modelled from the spec: the key a bound parameter denotes when compared
with the integer `id` column: a non-negative number, or a non-empty decimal
string (path parameters arrive as strings). -/
def idOfParam : JsVal → Option Nat
  | .num n => if 0 ≤ n then some n.toNat else none
  | .str s => if s.data = [] then none else digitsValue s.data 0
  | _ => none

/-- The reply to a statement the table model does not know, or one with the
wrong number of bound values. -/
def badStatement : StoreError := ⟨"ER_PARSE_ERROR", "statement not understood"⟩

/-- Modelled from the spec: the next key the store assigns to a new row. -/
def nextId (t : Table) : Nat := (t.map UserRow.id).foldr max 0 + 1

/-- Modelled from the spec: the SQL store is not part of the repository. A
store that keeps the `users` table in memory and answers the five statements
the handlers issue, bound values taken as they are passed. `keyOf` says which
key a bound value denotes in `WHERE id = ?`. -/
def tableStore (keyOf : JsVal → Option Nat) : Store Table := fun call t =>
  if call.sql = "SELECT * FROM users" then
    (.ok (.rows (t.map UserRow.toRow)), t)
  else if call.sql = "SELECT * FROM users WHERE id = ?" then
    match call.params with
    | [p] => (.ok (.rows ((t.filter fun u => keyOf p = some u.id).map UserRow.toRow)), t)
    | _ => (.error badStatement, t)
  else if call.sql = "INSERT INTO users (username, email, password, role) VALUES (?, ?, ?, ?)" then
    match call.params with
    | [username, email, password, role] =>
        (.ok (.header ⟨1, nextId t⟩), t ++ [⟨nextId t, username, email, password, role⟩])
    | _ => (.error badStatement, t)
  else if call.sql = "UPDATE users SET username = ?, email = ?, password = ?, role = ? WHERE id = ?" then
    match call.params with
    | [username, email, password, role, p] =>
        (.ok (.header ⟨(t.filter fun u => keyOf p = some u.id).length, 0⟩),
         t.map fun u =>
           if keyOf p = some u.id then ⟨u.id, username, email, password, role⟩ else u)
    | _ => (.error badStatement, t)
  else if call.sql = "DELETE FROM users WHERE id = ?" then
    match call.params with
    | [p] =>
        (.ok (.header ⟨(t.filter fun u => keyOf p = some u.id).length, 0⟩),
         t.filter fun u => ¬ keyOf p = some u.id)
    | _ => (.error badStatement, t)
  else
    (.error badStatement, t)

/-- A store whose every query fails with the given error. -/
def failingStore (e : StoreError) : Store Unit := fun _ s => (.error e, s)

/-! ## Reading a statement's placeholders -/

/-- Characters that separate the words of a statement. -/
def isSep (c : Char) : Bool := c = ' ' ∨ c = ',' ∨ c = '(' ∨ c = ')'

/-- Splits a statement into words; `cur` is the word being read, reversed. -/
def wordsAux : List Char → List Char → List String
  | [], cur => if cur = [] then [] else [String.mk cur.reverse]
  | c :: cs, cur =>
      if isSep c then
        (if cur = [] then wordsAux cs [] else String.mk cur.reverse :: wordsAux cs [])
      else wordsAux cs (c :: cur)

/-- The words of a statement. -/
def sqlWords (sql : String) : List String := wordsAux sql.data []

/-- The columns of the `column = ?` items of a statement, in order. -/
def comparedColumns : List String → List String
  | [] => []
  | c :: rest =>
      match rest with
      | eq :: q :: _ => if eq = "=" ∧ q = "?" then c :: comparedColumns rest else comparedColumns rest
      | _ => comparedColumns rest

/-- For each `?` of a statement, in order, the column it stands for: the
column list of an `INSERT ... (columns) VALUES (?, ...)`, the compared or
assigned column of each `column = ?` otherwise. -/
def placeholderColumns (sql : String) : List String :=
  match sqlWords sql with
  | "INSERT" :: "INTO" :: _ :: rest =>
      List.zipWith (fun c _ => c) (rest.takeWhile fun w => w ≠ "VALUES")
        (((rest.dropWhile fun w => w ≠ "VALUES").drop 1).filter fun w => w = "?")
  | ws => comparedColumns ws

/-- Number of `?` placeholders in a statement. -/
def countPlaceholders (sql : String) : Nat := sql.data.count '?'

/-- The request value that belongs to a column: the path parameter for `id`,
the body field of that name otherwise. -/
def requestValue (req : Req) (column : String) : JsVal :=
  if column = "id" then getProp req.params "id" else getProp req.body column

/-- The fixed failure message of each operation, as the specification lists
them. -/
def Op.failureText : Op → String
  | .getUsers => "Error getting users"
  | .getUserById => "Error getting user"
  | .createUser => "Error creating user"
  | .updateUser => "Error updating user"
  | .deleteUser => "Error deleting user"

/-! ## Sample data -/

/-- A user row used in the examples. -/
def ana : UserRow := ⟨1, .str "ana", .str "ana@example.org", .str "secret", .str "admin"⟩

/-- A second user row used in the examples. -/
def bob : UserRow := ⟨2, .str "bob", .str "bob@example.org", .str "hunter2", .str "user"⟩

/-- The request `GET /1` as `getUserById` receives it. -/
def getOne : Req := ⟨.GET, ["1"], [("id", .str "1")], []⟩

/-- The request `PUT /1` with a complete body, as `updateUser` receives it. -/
def putOne : Req :=
  ⟨.PUT, ["1"], [("id", .str "1")],
   [("username", .str "anna"), ("email", .str "anna@example.org"),
    ("password", .str "s3cret"), ("role", .str "user")]⟩

/-- The request `DELETE /1` as `deleteUser` receives it. -/
def deleteOne : Req := ⟨.DELETE, ["1"], [("id", .str "1")], []⟩

/-- The request `GET /api-docs` as it reaches the router. -/
def apiDocsGet : Req := ⟨.GET, ["api-docs"], [], []⟩

/-- The request `PUT /1` whose body has neither `username` nor `email`. -/
def putWithoutNames : Req :=
  ⟨.PUT, ["1"], [], [("password", .str "s3cret"), ("role", .str "user")]⟩

/-- A connection failure. -/
def connRefused : StoreError := ⟨"ECONNREFUSED", "connect ECONNREFUSED 127.0.0.1:3306"⟩

/-- A constraint violation. -/
def dupEntry : StoreError := ⟨"ER_DUP_ENTRY", "Duplicate entry for key users.email"⟩

/-! ## Running a handler

Each handler issues one query and then sends one response; the lemmas below
give the run of each handler against an arbitrary store in closed form. -/

theorem handle_getUsers {σ : Type} (db : Store σ) (req : Req) (s : σ) :
    handle getUsers db req s =
      ⟨match (db ⟨"SELECT * FROM users", []⟩ s).1 with
        | .ok rows => (Res.fresh.status 200).json rows.toJs
        | .error _ => (Res.fresh.status 500).json (.obj [("error", .str "Error getting users")]),
       (db ⟨"SELECT * FROM users", []⟩ s).2,
       [(⟨"SELECT * FROM users", []⟩, (db ⟨"SELECT * FROM users", []⟩ s).1)]⟩ := by
  simp only [handle, getUsers, Eff.run]
  cases (db ⟨"SELECT * FROM users", []⟩ s).1 <;> rfl

theorem handle_getUserById {σ : Type} (db : Store σ) (req : Req) (s : σ) :
    handle getUserById db req s =
      ⟨match (db ⟨"SELECT * FROM users WHERE id = ?", [getProp req.params "id"]⟩ s).1 with
        | .ok rows =>
            if gtZero rows.length then (Res.fresh.status 200).json rows.first
            else (Res.fresh.status 404).json (.obj [("error", .str "User not found")])
        | .error _ => (Res.fresh.status 500).json (.obj [("error", .str "Error getting user")]),
       (db ⟨"SELECT * FROM users WHERE id = ?", [getProp req.params "id"]⟩ s).2,
       [(⟨"SELECT * FROM users WHERE id = ?", [getProp req.params "id"]⟩,
         (db ⟨"SELECT * FROM users WHERE id = ?", [getProp req.params "id"]⟩ s).1)]⟩ := by
  simp only [handle, getUserById, Eff.run]
  cases (db ⟨"SELECT * FROM users WHERE id = ?", [getProp req.params "id"]⟩ s).1
  · rfl
  · simp only []
    split <;> rfl

theorem handle_createUser {σ : Type} (db : Store σ) (req : Req) (s : σ) :
    handle createUser db req s =
      ⟨match (db ⟨"INSERT INTO users (username, email, password, role) VALUES (?, ?, ?, ?)",
            [getProp req.body "username", getProp req.body "email",
             getProp req.body "password", getProp req.body "role"]⟩ s).1 with
        | .ok _ => (Res.fresh.status 201).json (.obj [("message", .str "User created successfully")])
        | .error _ => (Res.fresh.status 500).json (.obj [("error", .str "Error creating user")]),
       (db ⟨"INSERT INTO users (username, email, password, role) VALUES (?, ?, ?, ?)",
            [getProp req.body "username", getProp req.body "email",
             getProp req.body "password", getProp req.body "role"]⟩ s).2,
       [(⟨"INSERT INTO users (username, email, password, role) VALUES (?, ?, ?, ?)",
            [getProp req.body "username", getProp req.body "email",
             getProp req.body "password", getProp req.body "role"]⟩,
         (db ⟨"INSERT INTO users (username, email, password, role) VALUES (?, ?, ?, ?)",
            [getProp req.body "username", getProp req.body "email",
             getProp req.body "password", getProp req.body "role"]⟩ s).1)]⟩ := by
  simp only [handle, createUser, Eff.run]
  generalize (db _ s).1 = o
  cases o <;> rfl

theorem handle_updateUser {σ : Type} (db : Store σ) (req : Req) (s : σ) :
    handle updateUser db req s =
      ⟨match (db ⟨"UPDATE users SET username = ?, email = ?, password = ?, role = ? WHERE id = ?",
            [getProp req.body "username", getProp req.body "email",
             getProp req.body "password", getProp req.body "role",
             getProp req.params "id"]⟩ s).1 with
        | .ok _ => (Res.fresh.status 200).json (.obj [("message", .str "User updated successfully")])
        | .error _ => (Res.fresh.status 500).json (.obj [("error", .str "Error updating user")]),
       (db ⟨"UPDATE users SET username = ?, email = ?, password = ?, role = ? WHERE id = ?",
            [getProp req.body "username", getProp req.body "email",
             getProp req.body "password", getProp req.body "role",
             getProp req.params "id"]⟩ s).2,
       [(⟨"UPDATE users SET username = ?, email = ?, password = ?, role = ? WHERE id = ?",
            [getProp req.body "username", getProp req.body "email",
             getProp req.body "password", getProp req.body "role",
             getProp req.params "id"]⟩,
         (db ⟨"UPDATE users SET username = ?, email = ?, password = ?, role = ? WHERE id = ?",
            [getProp req.body "username", getProp req.body "email",
             getProp req.body "password", getProp req.body "role",
             getProp req.params "id"]⟩ s).1)]⟩ := by
  simp only [handle, updateUser, Eff.run]
  generalize (db _ s).1 = o
  cases o <;> rfl

theorem handle_deleteUser {σ : Type} (db : Store σ) (req : Req) (s : σ) :
    handle deleteUser db req s =
      ⟨match (db ⟨"DELETE FROM users WHERE id = ?", [getProp req.params "id"]⟩ s).1 with
        | .ok _ => (Res.fresh.status 200).json (.obj [("message", .str "User deleted successfully")])
        | .error _ => (Res.fresh.status 500).json (.obj [("error", .str "Error deleting user")]),
       (db ⟨"DELETE FROM users WHERE id = ?", [getProp req.params "id"]⟩ s).2,
       [(⟨"DELETE FROM users WHERE id = ?", [getProp req.params "id"]⟩,
         (db ⟨"DELETE FROM users WHERE id = ?", [getProp req.params "id"]⟩ s).1)]⟩ := by
  simp only [handle, deleteUser, Eff.run]
  generalize (db _ s).1 = o
  cases o <;> rfl

/-- A run of any of the five handlers in which the query was rejected sends
the fixed 500 response of the operation. -/
theorem sent_of_rejected {σ : Type} (op : Op) (db : Store σ) (s : σ) (req : Req)
    (e : StoreError) (h : Except.error e ∈ (handle op.handler db req s).outcomes) :
    (handle op.handler db req s).value.sent
      = [⟨500, .obj [("error", .str op.failureText)]⟩] := by
  have key : ∀ (r : Run σ Res) (o : Outcome) (c : DbCall) (t : σ) (f : Outcome → Res),
      r = ⟨f o, t, [(c, o)]⟩ → Except.error e ∈ r.outcomes →
      f (.error e) = (Res.fresh.status 500).json (.obj [("error", .str op.failureText)]) →
      r.value.sent = [⟨500, .obj [("error", .str op.failureText)]⟩] := by
    intro r o c t f hr hmem hf
    rw [hr] at hmem ⊢
    simp only [Run.outcomes, List.map, List.mem_singleton] at hmem
    rw [← hmem, hf]
    rfl
  cases op
  · exact key _ _ _ _ (fun o => match o with
      | .ok rows => (Res.fresh.status 200).json rows.toJs
      | .error _ => (Res.fresh.status 500).json (.obj [("error", .str "Error getting users")]))
      (handle_getUsers db req s) h rfl
  · exact key _ _ _ _ (fun o => match o with
      | .ok rows =>
          if gtZero rows.length then (Res.fresh.status 200).json rows.first
          else (Res.fresh.status 404).json (.obj [("error", .str "User not found")])
      | .error _ => (Res.fresh.status 500).json (.obj [("error", .str "Error getting user")]))
      (handle_getUserById db req s) h rfl
  · exact key _ _ _ _ (fun o => match o with
      | .ok _ => (Res.fresh.status 201).json (.obj [("message", .str "User created successfully")])
      | .error _ => (Res.fresh.status 500).json (.obj [("error", .str "Error creating user")]))
      (handle_createUser db req s) h rfl
  · exact key _ _ _ _ (fun o => match o with
      | .ok _ => (Res.fresh.status 200).json (.obj [("message", .str "User updated successfully")])
      | .error _ => (Res.fresh.status 500).json (.obj [("error", .str "Error updating user")]))
      (handle_updateUser db req s) h rfl
  · exact key _ _ _ _ (fun o => match o with
      | .ok _ => (Res.fresh.status 200).json (.obj [("message", .str "User deleted successfully")])
      | .error _ => (Res.fresh.status 500).json (.obj [("error", .str "Error deleting user")]))
      (handle_deleteUser db req s) h rfl

/-! ## Single-resource read -/

/-- C1: whenever the store answers `SELECT * FROM users WHERE id = ?`, bound to
the request's id, with a result set of at least one row, `getUserById` sends
exactly one response: status 200 with the first row of the result, unchanged,
as body. -/
theorem getUserById_sends_first_row {σ : Type} (db : Store σ) (s : σ) (req : Req)
    (row : Row) (rest : List Row)
    (h : (db ⟨"SELECT * FROM users WHERE id = ?", [getProp req.params "id"]⟩ s).1
          = .ok (.rows (row :: rest))) :
    (handle getUserById db req s).value.sent = [⟨200, .obj row⟩] := by
  simp [handle, getUserById, Eff.run, h, gtZero, QueryResult.length, QueryResult.first,
    Res.fresh, Res.status, Res.json]

/-- Instance: `GET /1` on a table holding rows 2 and 1. -/
theorem getUserById_sends_first_row_witness :
    (tableStore idOfParam ⟨"SELECT * FROM users WHERE id = ?", [getProp getOne.params "id"]⟩
        [bob, ana]).1 = .ok (.rows [ana.toRow])
    ∧ (handle getUserById (tableStore idOfParam) getOne [bob, ana]).value.sent
        = [⟨200, .obj ana.toRow⟩] :=
  ⟨by rfl, getUserById_sends_first_row (tableStore idOfParam) [bob, ana] getOne ana.toRow []
    (by rfl)⟩

/-- C2: whenever the store answers `SELECT * FROM users WHERE id = ?`, bound to
the request's id, with an empty result set, `getUserById` responds with status
404 and the body `{error: "User not found"}`. -/
theorem getUserById_not_found {σ : Type} (db : Store σ) (s : σ) (req : Req)
    (h : (db ⟨"SELECT * FROM users WHERE id = ?", [getProp req.params "id"]⟩ s).1
          = .ok (.rows [])) :
    (handle getUserById db req s).value.sent
      = [⟨404, .obj [("error", .str "User not found")]⟩] := by
  simp [handle, getUserById, Eff.run, h, gtZero, QueryResult.length, Res.fresh, Res.status,
    Res.json]

/-- Instance: `GET /1` on a table holding row 2 only. -/
theorem getUserById_not_found_witness :
    (tableStore idOfParam ⟨"SELECT * FROM users WHERE id = ?", [getProp getOne.params "id"]⟩
        [bob]).1 = .ok (.rows [])
    ∧ (handle getUserById (tableStore idOfParam) getOne [bob]).value.sent
        = [⟨404, .obj [("error", .str "User not found")]⟩] :=
  ⟨by rfl, getUserById_not_found (tableStore idOfParam) [bob] getOne (by rfl)⟩

/-! ## Store failures -/

/-- C3: for each of the five handlers, whenever the store query of a run is
rejected, the response is status 500 with the fixed message of the operation;
two runs of the same handler in which the query is rejected, with whatever
errors, send the same response. -/
theorem store_failure_sends_fixed_500 {σ τ : Type} (op : Op)
    (db₁ : Store σ) (s₁ : σ) (req₁ : Req) (e₁ : StoreError)
    (db₂ : Store τ) (s₂ : τ) (req₂ : Req) (e₂ : StoreError)
    (h₁ : Except.error e₁ ∈ (handle op.handler db₁ req₁ s₁).outcomes)
    (h₂ : Except.error e₂ ∈ (handle op.handler db₂ req₂ s₂).outcomes) :
    (handle op.handler db₁ req₁ s₁).value.sent
        = [⟨500, .obj [("error", .str op.failureText)]⟩]
    ∧ (handle op.handler db₂ req₂ s₂).value.sent
        = (handle op.handler db₁ req₁ s₁).value.sent := by
  rw [sent_of_rejected op db₁ s₁ req₁ e₁ h₁, sent_of_rejected op db₂ s₂ req₂ e₂ h₂]
  exact ⟨rfl, rfl⟩

/-- Instance: `createUser` against a refused connection and against a constraint violation. -/
theorem store_failure_sends_fixed_500_witness :
    (Except.error connRefused ∈
        (handle Op.createUser.handler (failingStore connRefused) putOne ()).outcomes
      ∧ Except.error dupEntry ∈
        (handle Op.createUser.handler (failingStore dupEntry) getOne ()).outcomes)
    ∧ (handle Op.createUser.handler (failingStore connRefused) putOne ()).value.sent
        = [⟨500, .obj [("error", .str "Error creating user")]⟩]
    ∧ (handle Op.createUser.handler (failingStore dupEntry) getOne ()).value.sent
        = (handle Op.createUser.handler (failingStore connRefused) putOne ()).value.sent :=
  ⟨⟨List.Mem.head _, List.Mem.head _⟩,
   store_failure_sends_fixed_500 Op.createUser (failingStore connRefused) () putOne connRefused
     (failingStore dupEntry) () getOne dupEntry (List.Mem.head _) (List.Mem.head _)⟩

/-! ## Update without an affected-row check -/

/-- C8: whenever the `UPDATE` query of a run is not rejected, whatever its
result value, `updateUser` responds with status 200 and the body
`{message: "User updated successfully"}`. -/
theorem updateUser_ignores_result {σ : Type} (db : Store σ) (s : σ) (req : Req)
    (result : QueryResult)
    (h : (handle updateUser db req s).outcomes = [.ok result]) :
    (handle updateUser db req s).value.sent
      = [⟨200, .obj [("message", .str "User updated successfully")]⟩] := by
  rw [handle_updateUser] at h ⊢
  simp only [Run.outcomes, List.map, List.cons.injEq, and_true] at h
  simp only [h]
  rfl

/-- Instance: `PUT /1` on a table without row 1, where the store reports zero affected rows. -/
theorem updateUser_ignores_result_witness :
    (handle updateUser (tableStore idOfParam) putOne [bob]).outcomes = [.ok (.header ⟨0, 0⟩)]
    ∧ (handle updateUser (tableStore idOfParam) putOne [bob]).value.sent
        = [⟨200, .obj [("message", .str "User updated successfully")]⟩] :=
  ⟨by rfl, updateUser_ignores_result (tableStore idOfParam) [bob] putOne (.header ⟨0, 0⟩)
    (by rfl)⟩

/-! ## Where 404 comes from -/

/-- C9: for every request and every store, `getUsers`, `createUser`,
`updateUser` and `deleteUser` send no response with status 404, and
`getUserById` sends a response with status 404 exactly when its query was
answered with a result that carries no rows. -/
theorem only_getUserById_sends_404 {σ : Type} (db : Store σ) (s : σ) (req : Req) :
    (∀ op : Op, op ≠ Op.getUserById →
        ∀ r ∈ (handle op.handler db req s).value.sent, r.status ≠ 404)
    ∧ ((∃ r ∈ (handle getUserById db req s).value.sent, r.status = 404)
        ↔ ∃ result : QueryResult,
            (handle getUserById db req s).outcomes = [.ok result] ∧ result.rowList = []) := by
  constructor
  · intro op hop
    cases op <;>
      simp only [Op.handler, handle_getUsers, handle_createUser, handle_updateUser,
        handle_deleteUser, ne_eq, not_true_eq_false] at hop ⊢ <;>
      generalize (db _ s).1 = o <;>
      cases o <;> simp [Res.fresh, Res.status, Res.json]
  · rw [handle_getUserById]
    simp only [Run.outcomes, List.map]
    generalize (db _ s).1 = o
    rcases o with e | result
    · simp [Res.fresh, Res.status, Res.json]
    · rcases result with rs | hd
      · cases rs <;>
          simp [Res.fresh, Res.status, Res.json, gtZero, QueryResult.length,
            QueryResult.rowList]
      · simp [Res.fresh, Res.status, Res.json, gtZero, QueryResult.length,
          QueryResult.rowList]

/-! ## Parameter binding -/

theorem placeholderColumns_selectAll : placeholderColumns "SELECT * FROM users" = [] := by
  decide

theorem placeholderColumns_selectOne :
    placeholderColumns "SELECT * FROM users WHERE id = ?" = ["id"] := by
  decide

theorem placeholderColumns_insert :
    placeholderColumns "INSERT INTO users (username, email, password, role) VALUES (?, ?, ?, ?)"
      = ["username", "email", "password", "role"] := by
  decide

theorem placeholderColumns_update :
    placeholderColumns
        "UPDATE users SET username = ?, email = ?, password = ?, role = ? WHERE id = ?"
      = ["username", "email", "password", "role", "id"] := by
  decide

theorem placeholderColumns_delete :
    placeholderColumns "DELETE FROM users WHERE id = ?" = ["id"] := by
  decide

/-- C4: for each handler and any two requests, served against any stores, the
statement texts passed to the store are the same; a run issues exactly one
call, and in it the bound values are the request's values for the columns of
the statement's placeholders, in the order of the placeholders, as many as
there are `?` in the statement. -/
theorem statement_fixed_values_bound {σ τ : Type} (op : Op)
    (db₁ : Store σ) (s₁ : σ) (req₁ : Req) (db₂ : Store τ) (s₂ : τ) (req₂ : Req) :
    (handle op.handler db₁ req₁ s₁).calls.map DbCall.sql
        = (handle op.handler db₂ req₂ s₂).calls.map DbCall.sql
    ∧ (handle op.handler db₁ req₁ s₁).calls.length = 1
    ∧ ∀ c ∈ (handle op.handler db₁ req₁ s₁).calls,
        c.params = (placeholderColumns c.sql).map (requestValue req₁)
        ∧ c.params.length = countPlaceholders c.sql := by
  cases op
  · simp only [Op.handler]
    rw [handle_getUsers, handle_getUsers]
    refine ⟨rfl, rfl, ?_⟩
    intro c hc
    simp only [Run.calls, List.map, List.mem_singleton] at hc
    subst hc
    exact ⟨by rw [placeholderColumns_selectAll]; rfl, rfl⟩
  · simp only [Op.handler]
    rw [handle_getUserById, handle_getUserById]
    refine ⟨rfl, rfl, ?_⟩
    intro c hc
    simp only [Run.calls, List.map, List.mem_singleton] at hc
    subst hc
    exact ⟨by rw [placeholderColumns_selectOne]; rfl, rfl⟩
  · simp only [Op.handler]
    rw [handle_createUser, handle_createUser]
    refine ⟨rfl, rfl, ?_⟩
    intro c hc
    simp only [Run.calls, List.map, List.mem_singleton] at hc
    subst hc
    exact ⟨by rw [placeholderColumns_insert]; rfl, rfl⟩
  · simp only [Op.handler]
    rw [handle_updateUser, handle_updateUser]
    refine ⟨rfl, rfl, ?_⟩
    intro c hc
    simp only [Run.calls, List.map, List.mem_singleton] at hc
    subst hc
    exact ⟨by rw [placeholderColumns_update]; rfl, rfl⟩
  · simp only [Op.handler]
    rw [handle_deleteUser, handle_deleteUser]
    refine ⟨rfl, rfl, ?_⟩
    intro c hc
    simp only [Run.calls, List.map, List.mem_singleton] at hc
    subst hc
    exact ⟨by rw [placeholderColumns_delete]; rfl, rfl⟩

/-! ## Sequences of requests against the table model -/

theorem tableStore_selectOne (keyOf : JsVal → Option Nat) (p : JsVal) (t : Table) :
    tableStore keyOf ⟨"SELECT * FROM users WHERE id = ?", [p]⟩ t
      = (.ok (.rows ((t.filter fun u => keyOf p = some u.id).map UserRow.toRow)), t) := by
  rfl

theorem tableStore_update (keyOf : JsVal → Option Nat) (username email password role p : JsVal)
    (t : Table) :
    tableStore keyOf
        ⟨"UPDATE users SET username = ?, email = ?, password = ?, role = ? WHERE id = ?",
         [username, email, password, role, p]⟩ t
      = (.ok (.header ⟨(t.filter fun u => keyOf p = some u.id).length, 0⟩),
         t.map fun u =>
           if keyOf p = some u.id then ⟨u.id, username, email, password, role⟩ else u) := by
  rfl

theorem tableStore_delete (keyOf : JsVal → Option Nat) (p : JsVal) (t : Table) :
    tableStore keyOf ⟨"DELETE FROM users WHERE id = ?", [p]⟩ t
      = (.ok (.header ⟨(t.filter fun u => keyOf p = some u.id).length, 0⟩),
         t.filter fun u => ¬ keyOf p = some u.id) := by
  rfl

/-- After every row with key `i` has been overwritten, selecting key `i` yields
the overwritten row first, provided some row had key `i`. -/
theorem filter_overwritten (i : Nat) (username email password role : JsVal) (t : Table)
    (hex : ∃ u ∈ t, u.id = i) :
    ∃ rest : List UserRow,
      (t.map fun u => if some i = some u.id then ⟨u.id, username, email, password, role⟩ else u).filter
          (fun u => some i = some u.id)
        = ⟨i, username, email, password, role⟩ :: rest := by
  induction t with
  | nil => simp at hex
  | cons u t ih =>
      by_cases hu : u.id = i
      · subst hu
        refine ⟨(t.map fun v =>
            if some u.id = some v.id then ⟨v.id, username, email, password, role⟩ else v).filter
              (fun v => some u.id = some v.id), ?_⟩
        simp only [List.map_cons, if_true]
        rw [List.filter_cons_of_pos (by simp)]
      · have hex' : ∃ v ∈ t, v.id = i := by
          rcases hex with ⟨v, hv, hvi⟩
          rcases List.mem_cons.mp hv with rfl | hv'
          · exact absurd hvi hu
          · exact ⟨v, hv', hvi⟩
        obtain ⟨rest, hrest⟩ := ih hex'
        refine ⟨rest, ?_⟩
        have hne : ¬ (some i = some u.id) := by
          intro h
          exact hu (Option.some.inj h).symm
        simp only [List.map_cons, hne, if_false]
        rw [List.filter_cons_of_neg (by simpa using hne)]
        exact hrest

/-- C6: over the table model, when some row has key `i` and the ids of both
requests denote `i`, `updateUser` followed by `getUserById` yields status 200
with a row whose id is `i` and whose username, email, password and role are
the four values of the update's body; the table keeps its length and every
row with another key stays where and as it was. -/
theorem update_then_get_reflects_body (keyOf : JsVal → Option Nat) (t : Table) (i : Nat)
    (reqU reqG : Req)
    (hU : keyOf (getProp reqU.params "id") = some i)
    (hG : keyOf (getProp reqG.params "id") = some i)
    (hex : ∃ u ∈ t, u.id = i) :
    (handle getUserById (tableStore keyOf) reqG
        (handle updateUser (tableStore keyOf) reqU t).state).value.sent
      = [⟨200, .obj [("id", .num i), ("username", getProp reqU.body "username"),
            ("email", getProp reqU.body "email"), ("password", getProp reqU.body "password"),
            ("role", getProp reqU.body "role")]⟩]
    ∧ (handle getUserById (tableStore keyOf) reqG
        (handle updateUser (tableStore keyOf) reqU t).state).state.length = t.length
    ∧ ∀ (k : Nat) (u : UserRow), t[k]? = some u → u.id ≠ i →
        (handle getUserById (tableStore keyOf) reqG
          (handle updateUser (tableStore keyOf) reqU t).state).state[k]? = some u := by
  rw [handle_updateUser, handle_getUserById]
  simp only [tableStore_update, tableStore_selectOne, hU, hG]
  obtain ⟨rest, hrest⟩ := filter_overwritten i (getProp reqU.body "username")
    (getProp reqU.body "email") (getProp reqU.body "password") (getProp reqU.body "role") t hex
  refine ⟨?_, ?_, ?_⟩
  · rw [hrest]
    simp [gtZero, QueryResult.length, QueryResult.first, UserRow.toRow, Res.fresh, Res.status,
      Res.json]
  · simp
  · intro k u hk hne
    have hne' : ¬ (some i = some u.id) := by
      intro h
      exact hne (Option.some.inj h).symm
    simp only [List.getElem?_map, hk, Option.map_some', hne', if_false]

/-- Instance: `PUT /1` then `GET /1` on a table holding rows 2 and 1. -/
theorem update_then_get_reflects_body_witness :
    (idOfParam (getProp putOne.params "id") = some 1
      ∧ idOfParam (getProp getOne.params "id") = some 1
      ∧ ∃ u ∈ [bob, ana], u.id = 1)
    ∧ (handle getUserById (tableStore idOfParam) getOne
        (handle updateUser (tableStore idOfParam) putOne [bob, ana]).state).value.sent
      = [⟨200, .obj [("id", .num (1 : Nat)), ("username", getProp putOne.body "username"),
            ("email", getProp putOne.body "email"), ("password", getProp putOne.body "password"),
            ("role", getProp putOne.body "role")]⟩]
    ∧ (handle getUserById (tableStore idOfParam) getOne
        (handle updateUser (tableStore idOfParam) putOne [bob, ana]).state).state.length
        = [bob, ana].length
    ∧ ∀ (k : Nat) (u : UserRow), [bob, ana][k]? = some u → u.id ≠ 1 →
        (handle getUserById (tableStore idOfParam) getOne
          (handle updateUser (tableStore idOfParam) putOne [bob, ana]).state).state[k]? = some u :=
  ⟨⟨by decide, by decide, ana, by simp, rfl⟩,
   update_then_get_reflects_body idOfParam [bob, ana] 1 putOne getOne (by decide) (by decide)
     ⟨ana, by simp, rfl⟩⟩

/-- C7: over the table model, for every table and two requests with the same
id, `deleteUser` followed by `getUserById` yields status 404 with the body
`{error: "User not found"}`, whether or not a row had that id. -/
theorem delete_then_get_not_found (keyOf : JsVal → Option Nat) (t : Table) (reqD reqG : Req)
    (hid : getProp reqG.params "id" = getProp reqD.params "id") :
    (handle getUserById (tableStore keyOf) reqG
        (handle deleteUser (tableStore keyOf) reqD t).state).value.sent
      = [⟨404, .obj [("error", .str "User not found")]⟩] := by
  rw [handle_deleteUser, handle_getUserById]
  simp only [tableStore_delete, tableStore_selectOne, hid]
  have hnil : (List.filter (fun u => decide (keyOf (getProp reqD.params "id") = some u.id))
      (List.filter (fun u => decide (¬ keyOf (getProp reqD.params "id") = some u.id)) t)) = [] := by
    rw [List.filter_filter]
    apply List.filter_eq_nil_iff.mpr
    intro u _
    simp
  rw [hnil]
  rfl

/-- Instance: `DELETE /1` then `GET /1` on a table holding rows 2 and 1. -/
theorem delete_then_get_not_found_witness :
    getProp getOne.params "id" = getProp deleteOne.params "id"
    ∧ (handle getUserById (tableStore idOfParam) getOne
        (handle deleteUser (tableStore idOfParam) deleteOne [bob, ana]).state).value.sent
      = [⟨404, .obj [("error", .str "User not found")]⟩] :=
  ⟨rfl, delete_then_get_not_found idOfParam [bob, ana] deleteOne getOne rfl⟩

/-! ## Requests served through the router -/

/-- The documentation layer is reached by requests that no earlier route ends,
such as a `GET` below the mount point. -/
theorem dispatch_below_api_docs :
    (dispatch usersRouter ⟨.GET, ["api-docs", "swagger-ui.css"], [], []⟩).map Prod.fst
      = some Target.swaggerUi := by
  decide

/-- C5, evaluated on the code: `GET /api-docs` matches the route `GET /:id`,
registered before the documentation mount, so it is dispatched to `getUserById`
with `id = "api-docs"`; the handler queries the store, and the response follows
the store: 500 when every query fails, 404 when the table has no such row. -/
theorem api_docs_get_dispatched_to_getUserById :
    (dispatch usersRouter apiDocsGet).map Prod.fst = some Target.getUserById
    ∧ (serve usersRouter (failingStore connRefused) apiDocsGet ()).calls.map DbCall.sql
        = ["SELECT * FROM users WHERE id = ?"]
    ∧ (serve usersRouter (failingStore connRefused) apiDocsGet ()).value.sent
        = [⟨500, .obj [("error", .str "Error getting user")]⟩]
    ∧ (serve usersRouter (tableStore idOfParam) apiDocsGet [ana]).value.sent
        = [⟨404, .obj [("error", .str "User not found")]⟩] :=
  ⟨by decide, by decide, rfl, rfl⟩

/-- C10, evaluated on the code: a `PUT /1` whose body lacks both `username` and
`email`, served by the router against a table holding row 1, is answered with
status 200 and the success message, not with status 400; the row is
overwritten with `undefined` in both fields. -/
theorem put_without_names_answered_200 :
    (serve usersRouter (tableStore idOfParam) putWithoutNames [ana]).value.sent
        = [⟨200, .obj [("message", .str "User updated successfully")]⟩]
    ∧ (∀ r ∈ (serve usersRouter (tableStore idOfParam) putWithoutNames [ana]).value.sent,
        r.status ≠ 400)
    ∧ (serve usersRouter (tableStore idOfParam) putWithoutNames [ana]).state
        = [⟨1, .undefined, .undefined, .str "s3cret", .str "user"⟩] := by
  refine ⟨rfl, ?_, rfl⟩
  intro r hr
  have h : (serve usersRouter (tableStore idOfParam) putWithoutNames [ana]).value.sent
      = [⟨200, .obj [("message", .str "User updated successfully")]⟩] := rfl
  rw [h, List.mem_singleton] at hr
  rw [hr]
  decide

end UsersApi
